import Mathlib

set_option synthInstance.maxSize 1024

/-!
Shallow embedding of the tflow2 IPFIX collector core: the field-layout
resolver and flow construction of ifserver/ifserver.go and the timestamp
alignment worker of annotator/annotator.go.  External collaborators whose
sources are not part of this development (the ipfix codec, the convert
helpers, the template cache of tmplcache.go, the stats counters and the
bird augmenter) are modelled from the specification, as marked on each
definition.  Machine integers are modelled as Nat/Int; Go runtime panics
(index out of range, integer modulo by zero) are modelled as the none
case of Option results.
-/

namespace Tflow2

/-- Field type codes recognized by the switch of generateFieldMap
(ifserver.go lines 229-262).  The constants live in the external ipfix
package; only their identity matters to src, so they are an inductive
type, with `other` covering every unrecognized code. -/
inductive FieldType where
  | IPv4SrcAddr
  | IPv6SrcAddr
  | IPv4DstAddr
  | IPv6DstAddr
  | InBytes
  | Protocol
  | InPkts
  | InputSnmp
  | OutputSnmp
  | IPv4NextHop
  | IPv6NextHop
  | L4SrcPort
  | L4DstPort
  | SrcAs
  | DstAs
  | other (code : Nat)
deriving DecidableEq

/-- One entry of a template's ordered field list: a type code and a field
length in bytes (the length is never consulted by generateFieldMap). -/
structure TemplateField where
  typ : FieldType
  length : Nat
deriving DecidableEq

/-- A template record as used by ifserver.go: the template ID from its
header and the ordered field list (ipfix.TemplateRecords). -/
structure TemplateRecords where
  templateID : Nat
  records : List TemplateField
deriving DecidableEq

/-- fieldMap of ifserver.go (lines 31-47): positional indices of the
semantic fields inside a decoded record's value slice, plus the detected
address family.  Go zero-initializes every slot to 0 (`var fm fieldMap`). -/
structure fieldMap where
  srcAddr : Nat := 0
  dstAddr : Nat := 0
  protocol : Nat := 0
  packets : Nat := 0
  size : Nat := 0
  intIn : Nat := 0
  intOut : Nat := 0
  nextHop : Nat := 0
  family : Nat := 0
  vlan : Nat := 0
  ts : Nat := 0
  srcAsn : Nat := 0
  dstAsn : Nat := 0
  srcPort : Nat := 0
  dstPort : Nat := 0
deriving DecidableEq

/-- One iteration of the switch body of generateFieldMap (ifserver.go
lines 229-262) for the field at positional index i. -/
def applyField (fm : fieldMap) (i : Nat) (f : TemplateField) : fieldMap :=
  match f.typ with
  | .IPv4SrcAddr => { fm with srcAddr := i, family := 4 }
  | .IPv6SrcAddr => { fm with srcAddr := i, family := 6 }
  | .IPv4DstAddr => { fm with dstAddr := i }
  | .IPv6DstAddr => { fm with dstAddr := i }
  | .InBytes => { fm with size := i }
  | .Protocol => { fm with protocol := i }
  | .InPkts => { fm with packets := i }
  | .InputSnmp => { fm with intIn := i }
  | .OutputSnmp => { fm with intOut := i }
  | .IPv4NextHop => { fm with nextHop := i }
  | .IPv6NextHop => { fm with nextHop := i }
  | .L4SrcPort => { fm with srcPort := i }
  | .L4DstPort => { fm with dstPort := i }
  | .SrcAs => { fm with srcAsn := i }
  | .DstAs => { fm with dstAsn := i }
  | .other _ => fm

/-- The loop of generateFieldMap: i starts at -1 in Go and is incremented
at the top of each iteration, so the first field is processed at index 0. -/
def generateFieldMapAux (fm : fieldMap) (i : Nat) : List TemplateField → fieldMap
  | [] => fm
  | f :: rest => generateFieldMapAux (applyField fm i f) (i + 1) rest

/-- generateFieldMap (ifserver.go lines 223-265): walk the template's
field list once in order, recording positional indices into the slots of a
zero-initialized fieldMap. -/
def generateFieldMap (template : TemplateRecords) : fieldMap :=
  generateFieldMapAux {} 0 template.records

/-- The twelve positional-index slots of fieldMap that generateFieldMap
can write (family is tracked separately; vlan and ts are never written). -/
inductive Slot where
  | srcAddr
  | dstAddr
  | protocol
  | packets
  | size
  | intIn
  | intOut
  | nextHop
  | srcPort
  | dstPort
  | srcAsn
  | dstAsn
deriving DecidableEq

/-- Which fieldMap slot a field type is recorded into, following the
switch of generateFieldMap; none for unrecognized types.  Both address
family variants of the source address, destination address and next hop
share one slot. -/
def slotOf : FieldType → Option Slot
  | .IPv4SrcAddr => some .srcAddr
  | .IPv6SrcAddr => some .srcAddr
  | .IPv4DstAddr => some .dstAddr
  | .IPv6DstAddr => some .dstAddr
  | .InBytes => some .size
  | .Protocol => some .protocol
  | .InPkts => some .packets
  | .InputSnmp => some .intIn
  | .OutputSnmp => some .intOut
  | .IPv4NextHop => some .nextHop
  | .IPv6NextHop => some .nextHop
  | .L4SrcPort => some .srcPort
  | .L4DstPort => some .dstPort
  | .SrcAs => some .srcAsn
  | .DstAs => some .dstAsn
  | .other _ => none

/-- Read one positional-index slot of a fieldMap. -/
def readSlot (fm : fieldMap) : Slot → Nat
  | .srcAddr => fm.srcAddr
  | .dstAddr => fm.dstAddr
  | .protocol => fm.protocol
  | .packets => fm.packets
  | .size => fm.size
  | .intIn => fm.intIn
  | .intOut => fm.intOut
  | .nextHop => fm.nextHop
  | .srcPort => fm.srcPort
  | .dstPort => fm.dstPort
  | .srcAsn => fm.srcAsn
  | .dstAsn => fm.dstAsn

/-- Position (from the front of the field list) of the last field whose
type is recorded into slot s; none when no such field occurs.  This is the
specification-side description of the resolver's layout ("the last
occurrence's index wins"), to be compared with generateFieldMap. -/
def lastSlotPos (s : Slot) : List TemplateField → Option Nat
  | [] => none
  | f :: rest =>
    match lastSlotPos s rest with
    | some k => some (k + 1)
    | none => if slotOf f.typ = some s then some 0 else none

/-- netflow.Flow as populated by ifserver.go lines 168-186 and mutated by
annotator.go line 62 (the type itself is an external protobuf message;
the fields are those src reads or writes). -/
structure Flow where
  router : List Nat
  timestamp : Int
  family : Nat
  packets : Nat
  size : Nat
  protocol : Nat
  intIn : Nat
  intOut : Nat
  srcPort : Nat
  dstPort : Nat
  srcAddr : List Nat
  dstAddr : List Nat
  nextHop : List Nat
  srcAs : Nat
  dstAs : Nat
deriving DecidableEq

/-- One decoded data record: the raw value byte sequences, one per
template field (ipfix.FlowDataRecord.Values, produced by the external
codec). -/
structure FlowDataRecord where
  values : List (List Nat)
deriving DecidableEq

/-- Modelled from the spec: convert.Uint32 of the external convert package
decodes a byte sequence as an unsigned big-endian integer, truncated to 32
bits ("scalar counters ... decoded as unsigned big-endian integers"). -/
def convert_Uint32 (b : List Nat) : Nat :=
  b.foldl (fun acc x => (acc * 256 + x) % 2 ^ 32) 0

/-- Modelled from the spec: convert.Reverse of the external convert
package reverses a byte sequence ("the wire format stores certain
multi-byte fields reversed relative to standard network order"). -/
def convert_Reverse (b : List Nat) : List Nat := b.reverse

/-- Construction of one netflow.Flow from one data record (ifserver.go
lines 168-186).  Go indexes r.Values at the resolved slots and panics if
an index is out of range; the guard collects exactly the indices the Go
code accesses (the AS slots are only accessed when bgpAugment is false),
and the none result models the panic.  All getD defaults are unreachable
under the guard. -/
def makeFlow (bgpAugment : Bool) (fm : fieldMap) (agent : List Nat) (ts : Int)
    (r : FlowDataRecord) : Option Flow :=
  if fm.packets < r.values.length ∧ fm.size < r.values.length ∧
     fm.protocol < r.values.length ∧ fm.intIn < r.values.length ∧
     fm.intOut < r.values.length ∧ fm.srcPort < r.values.length ∧
     fm.dstPort < r.values.length ∧ fm.srcAddr < r.values.length ∧
     fm.dstAddr < r.values.length ∧ fm.nextHop < r.values.length ∧
     (bgpAugment = false → fm.srcAsn < r.values.length ∧ fm.dstAsn < r.values.length)
  then some
    { router := agent
      timestamp := ts
      family := fm.family
      packets := convert_Uint32 (r.values.getD fm.packets [])
      size := convert_Uint32 (r.values.getD fm.size [])
      protocol := convert_Uint32 (r.values.getD fm.protocol [])
      intIn := convert_Uint32 (r.values.getD fm.intIn [])
      intOut := convert_Uint32 (r.values.getD fm.intOut [])
      srcPort := convert_Uint32 (r.values.getD fm.srcPort [])
      dstPort := convert_Uint32 (r.values.getD fm.dstPort [])
      srcAddr := convert_Reverse (r.values.getD fm.srcAddr [])
      dstAddr := convert_Reverse (r.values.getD fm.dstAddr [])
      nextHop := convert_Reverse (r.values.getD fm.nextHop [])
      srcAs := if bgpAugment then 0 else convert_Uint32 (r.values.getD fm.srcAsn [])
      dstAs := if bgpAugment then 0 else convert_Uint32 (r.values.getD fm.dstAsn []) }
  else none

/-- Modelled from the spec: the Global Counters of the external stats
package — "bytes/packets at the wire level, bytes/packets at the flow
level, flow counts split by address family" — exactly the six counters
src touches. -/
structure GlobalStats where
  IPFIXpackets : Nat
  IPFIXbytes : Nat
  Flows4 : Nat
  Flows6 : Nat
  FlowBytes : Nat
  FlowPackets : Nat
deriving DecidableEq

/-- The record loop of processFlowSet (ifserver.go lines 158-193):
records whose resolved family is neither 4 nor 6 are skipped with a
warning; otherwise the per-family flow counter is incremented and a Flow
is built and emitted.  The emitted flows are collected in order; none
models a runtime panic inside makeFlow. -/
def processRecords (bgpAugment : Bool) (fm : fieldMap) (agent : List Nat) (ts : Int)
    (stats : GlobalStats) : List FlowDataRecord → Option (List Flow × GlobalStats)
  | [] => some ([], stats)
  | r :: rest =>
    if fm.family = 4 then
      match makeFlow bgpAugment fm agent ts r with
      | none => none
      | some fl =>
        match processRecords bgpAugment fm agent ts
            { stats with Flows4 := stats.Flows4 + 1 } rest with
        | none => none
        | some (fls, st) => some (fl :: fls, st)
    else if fm.family = 6 then
      match makeFlow bgpAugment fm agent ts r with
      | none => none
      | some fl =>
        match processRecords bgpAugment fm agent ts
            { stats with Flows6 := stats.Flows6 + 1 } rest with
        | none => none
        | some (fls, st) => some (fl :: fls, st)
    else
      processRecords bgpAugment fm agent ts stats rest

/-- processFlowSet (ifserver.go lines 155-194): resolve the field layout
once, then convert every record. -/
def processFlowSet (bgpAugment : Bool) (template : TemplateRecords)
    (records : List FlowDataRecord) (agent : List Nat) (ts : Int)
    (stats : GlobalStats) : Option (List Flow × GlobalStats) :=
  processRecords bgpAugment (generateFieldMap template) agent ts stats records

/-- Modelled from the spec: the Template Cache of tmplcache.go (not part
of this development) maps the identity (exporter address as a 32-bit
integer, observation domain ID, template ID) to the most recently stored
template; an association list with the newest entry first. -/
abbrev templateCacheT := List ((Nat × Nat × Nat) × TemplateRecords)

/-- Modelled from the spec: templateCache.set stores/overwrites the
definition for a Template Identity. -/
def tcSet (c : templateCacheT) (router domainID templateID : Nat)
    (tr : TemplateRecords) : templateCacheT :=
  ((router, domainID, templateID), tr) :: c

/-- Modelled from the spec: templateCache.get returns the current
definition for a Template Identity, or none when never set. -/
def tcGet (c : templateCacheT) (router domainID templateID : Nat) :
    Option TemplateRecords :=
  (c.find? (fun e => decide (e.1 = (router, domainID, templateID)))).map Prod.snd

/-- One flow set of a decoded packet: the set ID from its header (used as
the template ID for the cache lookup) and the raw payload handed to the
external record decoder. -/
structure IpfixSet where
  setID : Nat
  payload : List Nat
deriving DecidableEq

/-- Header of a decoded packet: observation domain ID and export time
(uint32 on the wire). -/
structure IpfixHeader where
  domainID : Nat
  exportTime : Nat
deriving DecidableEq

/-- A decoded packet as exposed by the external codec: header, the
template records it carries, and its data flow sets. -/
structure IpfixPacket where
  header : IpfixHeader
  templateSets : List TemplateRecords
  dataFlowSets : List IpfixSet
deriving DecidableEq

/-- processFlowSets (ifserver.go lines 131-152): for each flow set, look
the template up in the cache; when absent, or when record decoding fails,
log and continue with the next set.  The external
TemplateRecords.DecodeFlowSet is passed in as decodeFS (none models its
nil result).  The cache is threaded through and returned so that theorems
can speak about its final state. -/
def processFlowSets (decodeFS : TemplateRecords → IpfixSet → Option (List FlowDataRecord))
    (bgpAugment : Bool) (cache : templateCacheT) (exporter : Nat) (agent : List Nat)
    (domainID : Nat) (ts : Int) (stats : GlobalStats) :
    List IpfixSet → Option (List Flow × GlobalStats × templateCacheT)
  | [] => some ([], stats, cache)
  | s :: rest =>
    match tcGet cache exporter domainID s.setID with
    | none => processFlowSets decodeFS bgpAugment cache exporter agent domainID ts stats rest
    | some template =>
      match decodeFS template s with
      | none => processFlowSets decodeFS bgpAugment cache exporter agent domainID ts stats rest
      | some records =>
        match processFlowSet bgpAugment template records agent ts stats with
        | none => none
        | some (fls, stats1) =>
          match processFlowSets decodeFS bgpAugment cache exporter agent domainID ts stats1 rest with
          | none => none
          | some (fls1, stats2, cache1) => some (fls ++ fls1, stats2, cache1)

/-- updateTemplateCache (ifserver.go lines 268-273): store every template
record of the packet under (exporter, packet domain ID, template ID). -/
def updateTemplateCache (cache : templateCacheT) (exporter : Nat) (p : IpfixPacket) :
    templateCacheT :=
  p.templateSets.foldl (fun c tr => tcSet c exporter p.header.domainID tr.templateID tr) cache

/-- Modelled from the spec: a datagram sender address; ipTo4 is the
net.IP.To4 test of packetWorker — the 4-byte form for an address in the
IPv4 address space, none otherwise. -/
inductive IPAddr where
  | v4 (bytes : List Nat)
  | nonV4 (bytes : List Nat)
deriving DecidableEq

/-- Modelled from the spec: net.IP.To4 as used in ifserver.go line 106. -/
def ipTo4 : IPAddr → Option (List Nat)
  | .v4 b => some b
  | .nonV4 _ => none

/-- processPacket (ifserver.go lines 118-128): run the external codec
(passed in as decodeP; none models a decode error, which is logged and
the packet discarded), update the template cache, then process the data
flow sets with ts = int64(header.ExportTime). -/
def processPacket (decodeP : List Nat → IPAddr → Option IpfixPacket)
    (decodeFS : TemplateRecords → IpfixSet → Option (List FlowDataRecord))
    (bgpAugment : Bool) (cache : templateCacheT) (stats : GlobalStats)
    (remote4 : List Nat) (buffer : List Nat) :
    Option (List Flow × GlobalStats × templateCacheT) :=
  match decodeP buffer (IPAddr.v4 remote4) with
  | none => some ([], stats, cache)
  | some packet =>
    let cache1 := updateTemplateCache cache (convert_Uint32 remote4) packet
    processFlowSets decodeFS bgpAugment cache1 (convert_Uint32 remote4) remote4
      packet.header.domainID (Int.ofNat packet.header.exportTime) stats packet.dataFlowSets

/-- One loop iteration of packetWorker (ifserver.go lines 97-113) for a
successfully read datagram: count it in the wire-level packet/byte
counters, drop it (with only a log line) when the sender is not in the
IPv4 address space, otherwise hand it to processPacket. -/
def packetWorkerStep (decodeP : List Nat → IPAddr → Option IpfixPacket)
    (decodeFS : TemplateRecords → IpfixSet → Option (List FlowDataRecord))
    (bgpAugment : Bool) (cache : templateCacheT) (stats : GlobalStats)
    (remote : IPAddr) (payload : List Nat) :
    Option (List Flow × GlobalStats × templateCacheT) :=
  let stats1 := { stats with IPFIXpackets := stats.IPFIXpackets + 1,
                             IPFIXbytes := stats.IPFIXbytes + payload.length }
  match ipTo4 remote with
  | none => some ([], stats1, cache)
  | some ip4 => processPacket decodeP decodeFS bgpAugment cache stats1 ip4 payload

/-- Timestamp alignment of annotator.go line 62: Timestamp - (Timestamp %
aggregation).  Go's % on int64 is the truncated-division remainder, i.e.
Int.tmod. -/
def align (t p : Int) : Int := t - Int.tmod t p

/-- One worker iteration of Annotator.Init (annotator.go lines 57-75) on
one received flow: align the timestamp, add the flow's byte and packet
counts to the global counters, augment via the external bird collaborator
(passed in as augment) when bgpAugment is set, and yield the flow to
forward.  The none result models the Go runtime panic of % by zero when
aggregation is zero; the source has no guard. -/
def annotatorStep (bgpAugment : Bool) (augment : Flow → Flow) (aggregation : Int)
    (stats : GlobalStats) (fl : Flow) : Option (Flow × GlobalStats) :=
  if aggregation = 0 then none
  else
    let fl1 := { fl with timestamp := align fl.timestamp aggregation }
    let stats1 := { stats with FlowBytes := stats.FlowBytes + fl1.size,
                               FlowPackets := stats.FlowPackets + fl1.packets }
    some (if bgpAugment then augment fl1 else fl1, stats1)

lemma readSlot_applyField (fm : fieldMap) (i : Nat) (f : TemplateField) (s : Slot) :
    readSlot (applyField fm i f) s = if slotOf f.typ = some s then i else readSlot fm s := by
  obtain ⟨t, len⟩ := f
  cases t <;> cases s <;> simp [applyField, readSlot, slotOf]

lemma readSlot_generateFieldMapAux (s : Slot) :
    ∀ (l : List TemplateField) (fm : fieldMap) (i : Nat),
      readSlot (generateFieldMapAux fm i l) s =
        match lastSlotPos s l with
        | some k => i + k
        | none => readSlot fm s := by
  intro l
  induction l with
  | nil => intro fm i; rfl
  | cons f rest ih =>
    intro fm i
    rw [generateFieldMapAux, ih, lastSlotPos]
    cases h : lastSlotPos s rest with
    | some k => simp [h]; ring
    | none =>
      simp only [h, readSlot_applyField]
      split <;> simp

lemma readSlot_default (s : Slot) : readSlot {} s = 0 := by
  cases s <;> rfl

lemma generateFieldMap_readSlot (template : TemplateRecords) (s : Slot) :
    readSlot (generateFieldMap template) s = (lastSlotPos s template.records).getD 0 := by
  rw [generateFieldMap, readSlot_generateFieldMapAux]
  cases h : lastSlotPos s template.records <;> simp [h, readSlot_default]

lemma lastSlotPos_eq_none (s : Slot) (l : List TemplateField)
    (h : ∀ f ∈ l, slotOf f.typ ≠ some s) : lastSlotPos s l = none := by
  induction l with
  | nil => rfl
  | cons f rest ih =>
    rw [lastSlotPos, ih (fun g hg => h g (List.mem_cons_of_mem f hg))]
    simp [h f (List.mem_cons_self f rest)]

lemma slotOf_eq_packets (t : FieldType) : slotOf t = some Slot.packets ↔ t = FieldType.InPkts := by
  cases t <;> simp [slotOf]

lemma slotOf_eq_size (t : FieldType) : slotOf t = some Slot.size ↔ t = FieldType.InBytes := by
  cases t <;> simp [slotOf]

lemma align_eq_mul_ediv (t p : Int) (ht : 0 ≤ t) (hp : 0 < p) :
    align t p = p * (t / p) := by
  rw [align, Int.tmod_eq_emod ht (Int.le_of_lt hp)]
  have h := Int.ediv_add_emod t p
  omega

/-- C1: the alignment transform of the Annotation Stage, as the claim
states it over every timestamp, fails for negative timestamps: Go's % is
the truncated-division remainder, so align rounds toward zero there and
the lower bound align(t,p) <= t is violated at t = -5, p = 10 (the
idempotence conjunct alone would hold). -/
theorem align_claim_fails_on_negative_timestamp :
    ¬ (align (align (-5) 10) 10 = align (-5) 10 ∧
       align (-5) 10 ≤ -5 ∧ (-5 : Int) < align (-5) 10 + 10) := by
  decide

/-- C1 (amended): for every nonnegative timestamp t — the pipeline only
ever aligns timestamps coming from an unsigned 32-bit export time — and
every aggregation interval p > 0, align is idempotent and satisfies
align(t,p) <= t < align(t,p) + p. -/
theorem align_idempotent_and_bounds (t p : Int) (ht : 0 ≤ t) (hp : 0 < p) :
    align (align t p) p = align t p ∧ align t p ≤ t ∧ t < align t p + p := by
  have hp0 : p ≠ 0 := Int.ne_of_gt hp
  have hmod_nonneg : 0 ≤ t % p := Int.emod_nonneg t hp0
  have hmod_lt : t % p < p := Int.emod_lt_of_pos t hp
  have he : align t p = t - t % p := by
    rw [align, Int.tmod_eq_emod ht (Int.le_of_lt hp)]
  have hmul : align t p = p * (t / p) := align_eq_mul_ediv t p ht hp
  have hnn : 0 ≤ align t p := by
    rw [hmul]
    exact Int.mul_nonneg (Int.le_of_lt hp) (Int.ediv_nonneg ht (Int.le_of_lt hp))
  refine ⟨?_, by omega, by omega⟩
  have he2 : align (align t p) p = align t p - align t p % p := by
    rw [align, Int.tmod_eq_emod hnn (Int.le_of_lt hp)]
  rw [he2, hmul, Int.mul_emod_right]
  omega

/-- C1 witness: concrete instance t = 7, p = 3. -/
theorem align_idempotent_and_bounds_witness :
    (0 : Int) ≤ 7 ∧ (0 : Int) < 3 ∧
      (align (align 7 3) 3 = align 7 3 ∧ align 7 3 ≤ 7 ∧ (7 : Int) < align 7 3 + 3) :=
  ⟨by decide, by decide, align_idempotent_and_bounds 7 3 (by decide) (by decide)⟩

/-- C3: as stated, the claim fails when both address-family variants map
to the same slot: in the template [IPv4DstAddr, IPv4DstAddr, IPv6DstAddr]
the recognized type IPv4DstAddr occurs more than once with last occurrence
at index 1, yet the dstAddr slot holds 2 (the index of the later
IPv6DstAddr, which shares the slot). -/
theorem generateFieldMap_last_occurrence_fails_on_shared_slot :
    (generateFieldMap ⟨256, [⟨.IPv4DstAddr, 4⟩, ⟨.IPv4DstAddr, 4⟩, ⟨.IPv6DstAddr, 16⟩]⟩).dstAddr ≠ 1 ∧
    (generateFieldMap ⟨256, [⟨.IPv4DstAddr, 4⟩, ⟨.IPv4DstAddr, 4⟩, ⟨.IPv6DstAddr, 16⟩]⟩).dstAddr = 2 := by
  decide

/-- C3 (amended): the resolver walks the field list once in order and
every slot of the resulting layout holds the positional index of the last
field whose type is recorded into that slot (the two address-family
variants of an address field share one slot), defaulting to 0 when no
such field occurs. -/
theorem generateFieldMap_last_write_wins (template : TemplateRecords) (s : Slot) :
    readSlot (generateFieldMap template) s = (lastSlotPos s template.records).getD 0 :=
  generateFieldMap_readSlot template s

/-- C4: the detected address family is set only by source-address fields
(IPv4 source sets 4, IPv6 source sets 6, every other type leaves it
unchanged), and an unrecognized field type leaves the whole layout
unchanged. -/
theorem generateFieldMap_family_and_skip :
    (∀ (fm : fieldMap) (i len : Nat), (applyField fm i ⟨.IPv4SrcAddr, len⟩).family = 4) ∧
    (∀ (fm : fieldMap) (i len : Nat), (applyField fm i ⟨.IPv6SrcAddr, len⟩).family = 6) ∧
    (∀ (fm : fieldMap) (i : Nat) (f : TemplateField),
      f.typ ≠ .IPv4SrcAddr → f.typ ≠ .IPv6SrcAddr → (applyField fm i f).family = fm.family) ∧
    (∀ (fm : fieldMap) (i code len : Nat), applyField fm i ⟨.other code, len⟩ = fm) := by
  refine ⟨fun fm i len => rfl, fun fm i len => rfl, ?_, fun fm i code len => rfl⟩
  intro fm i f h4 h6
  obtain ⟨t, len⟩ := f
  cases t <;> simp_all [applyField]

/-- C4 witness: a protocol field at index 2 leaves the family unchanged,
and an unrecognized type code leaves the layout unchanged. -/
theorem generateFieldMap_family_and_skip_witness :
    (⟨FieldType.Protocol, 1⟩ : TemplateField).typ ≠ FieldType.IPv4SrcAddr ∧
    (⟨FieldType.Protocol, 1⟩ : TemplateField).typ ≠ FieldType.IPv6SrcAddr ∧
    (applyField {} 2 ⟨FieldType.Protocol, 1⟩).family = ({} : fieldMap).family :=
  ⟨by decide, by decide,
    generateFieldMap_family_and_skip.2.2.1 {} 2 ⟨FieldType.Protocol, 1⟩ (by decide) (by decide)⟩

lemma generateFieldMap_packets_eq_zero (template : TemplateRecords)
    (h : ∀ f ∈ template.records, f.typ ≠ FieldType.InPkts) :
    (generateFieldMap template).packets = 0 := by
  have hs := generateFieldMap_readSlot template Slot.packets
  rw [lastSlotPos_eq_none Slot.packets template.records
    (fun f hf => by simp only [ne_eq, slotOf_eq_packets]; exact h f hf)] at hs
  simpa [readSlot] using hs

lemma generateFieldMap_size_eq_zero (template : TemplateRecords)
    (h : ∀ f ∈ template.records, f.typ ≠ FieldType.InBytes) :
    (generateFieldMap template).size = 0 := by
  have hs := generateFieldMap_readSlot template Slot.size
  rw [lastSlotPos_eq_none Slot.size template.records
    (fun f hf => by simp only [ne_eq, slotOf_eq_size]; exact h f hf)] at hs
  simpa [readSlot] using hs

/-- C2: the claim that a missing packet-count (byte-count) field yields a
zero counter fails on the code: the unset slot defaults to index 0, so
the counter aliases whatever value occupies index 0.  With the template
[IPv4SrcAddr, InBytes] (no InPkts) and a record whose value at index 0 is
the address bytes [10,0,0,1], the constructed Flow's packet count is
167772161, not 0. -/
theorem makeFlow_missing_count_not_zero :
    (makeFlow false (generateFieldMap ⟨256, [⟨.IPv4SrcAddr, 4⟩, ⟨.InBytes, 4⟩]⟩)
        [10, 0, 0, 9] 0 ⟨[[10, 0, 0, 1], [0, 0, 5, 220]]⟩).map Flow.packets
      = some 167772161 ∧
    (makeFlow false (generateFieldMap ⟨256, [⟨.IPv4SrcAddr, 4⟩, ⟨.InBytes, 4⟩]⟩)
        [10, 0, 0, 9] 0 ⟨[[10, 0, 0, 1], [0, 0, 5, 220]]⟩).map Flow.packets
      ≠ some 0 := by
  decide

/-- C2 (amended): when the packet-count (resp. byte-count) field type does
not occur in the template, the constructed Flow's packet count (resp.
byte count) equals the unsigned big-endian decode of the record's value
sequence at index 0 — the unset slot defaults to index 0 and aliases the
field stored there. -/
theorem makeFlow_missing_count_aliases_index_zero (template : TemplateRecords)
    (bgpAugment : Bool) (agent : List Nat) (ts : Int) (r : FlowDataRecord) (fl : Flow)
    (hfl : makeFlow bgpAugment (generateFieldMap template) agent ts r = some fl) :
    (template.records.all (fun f => decide (f.typ ≠ FieldType.InPkts)) = true →
      fl.packets = convert_Uint32 (r.values.getD 0 [])) ∧
    (template.records.all (fun f => decide (f.typ ≠ FieldType.InBytes)) = true →
      fl.size = convert_Uint32 (r.values.getD 0 [])) := by
  rw [makeFlow] at hfl
  split at hfl
  · injection hfl with hfl
    subst hfl
    constructor
    · intro hall
      have h : ∀ f ∈ template.records, f.typ ≠ FieldType.InPkts := by
        intro f hf
        simpa using List.all_eq_true.mp hall f hf
      simp [generateFieldMap_packets_eq_zero template h]
    · intro hall
      have h : ∀ f ∈ template.records, f.typ ≠ FieldType.InBytes := by
        intro f hf
        simpa using List.all_eq_true.mp hall f hf
      simp [generateFieldMap_size_eq_zero template h]
  · exact Option.noConfusion hfl

/-- C2 witness: a template with only a source-address field, a one-value
record; the packet count aliases the value at index 0. -/
theorem makeFlow_missing_count_aliases_index_zero_witness :
    makeFlow false (generateFieldMap ⟨256, [⟨FieldType.IPv4SrcAddr, 4⟩]⟩) [9] 0 ⟨[[1]]⟩
      = some ⟨[9], 0, 4, 1, 1, 1, 1, 1, 1, 1, [1], [1], [1], 1, 1⟩ ∧
    (⟨256, [⟨FieldType.IPv4SrcAddr, 4⟩]⟩ : TemplateRecords).records.all
      (fun f => decide (f.typ ≠ FieldType.InPkts)) = true ∧
    (⟨[9], 0, 4, 1, 1, 1, 1, 1, 1, 1, [1], [1], [1], 1, 1⟩ : Flow).packets
      = convert_Uint32 (([[1]] : List (List Nat)).getD 0 []) :=
  ⟨by decide, by decide,
    (makeFlow_missing_count_aliases_index_zero ⟨256, [⟨FieldType.IPv4SrcAddr, 4⟩]⟩
      false [9] 0 ⟨[[1]]⟩ ⟨[9], 0, 4, 1, 1, 1, 1, 1, 1, 1, [1], [1], [1], 1, 1⟩
      (by decide)).1 (by decide)⟩

/-- C5: the byte-order reversal is applied exactly to the source address,
destination address and next hop, while every scalar field is decoded as
an unsigned big-endian integer without reversal (the AS fields only when
BGP augmentation is disabled, since they are not populated otherwise). -/
theorem makeFlow_reversal_exactly_on_addresses (bgpAugment : Bool) (fm : fieldMap)
    (agent : List Nat) (ts : Int) (r : FlowDataRecord) (fl : Flow)
    (h : makeFlow bgpAugment fm agent ts r = some fl) :
    fl.srcAddr = convert_Reverse (r.values.getD fm.srcAddr []) ∧
    fl.dstAddr = convert_Reverse (r.values.getD fm.dstAddr []) ∧
    fl.nextHop = convert_Reverse (r.values.getD fm.nextHop []) ∧
    fl.packets = convert_Uint32 (r.values.getD fm.packets []) ∧
    fl.size = convert_Uint32 (r.values.getD fm.size []) ∧
    fl.protocol = convert_Uint32 (r.values.getD fm.protocol []) ∧
    fl.intIn = convert_Uint32 (r.values.getD fm.intIn []) ∧
    fl.intOut = convert_Uint32 (r.values.getD fm.intOut []) ∧
    fl.srcPort = convert_Uint32 (r.values.getD fm.srcPort []) ∧
    fl.dstPort = convert_Uint32 (r.values.getD fm.dstPort []) ∧
    (bgpAugment = false →
      fl.srcAs = convert_Uint32 (r.values.getD fm.srcAsn []) ∧
      fl.dstAs = convert_Uint32 (r.values.getD fm.dstAsn [])) := by
  rw [makeFlow] at h
  split at h
  · injection h with h
    subst h
    refine ⟨rfl, rfl, rfl, rfl, rfl, rfl, rfl, rfl, rfl, rfl, ?_⟩
    intro hb
    subst hb
    exact ⟨rfl, rfl⟩
  · exact Option.noConfusion h

/-- C5 witness: the zero fieldMap and a single-value record. -/
theorem makeFlow_reversal_exactly_on_addresses_witness :
    makeFlow false {} [9] 0 ⟨[[1]]⟩
      = some ⟨[9], 0, 0, 1, 1, 1, 1, 1, 1, 1, [1], [1], [1], 1, 1⟩ ∧
    (⟨[9], 0, 0, 1, 1, 1, 1, 1, 1, 1, [1], [1], [1], 1, 1⟩ : Flow).srcAddr
      = convert_Reverse (([[1]] : List (List Nat)).getD 0 []) :=
  ⟨by decide,
    (makeFlow_reversal_exactly_on_addresses false {} [9] 0 ⟨[[1]]⟩
      ⟨[9], 0, 0, 1, 1, 1, 1, 1, 1, 1, [1], [1], [1], 1, 1⟩ (by decide)).1⟩

/-- C8: with BGP augmentation enabled the constructed Flow's AS fields
stay at their zero value; with it disabled they are populated from the
record values at the resolved AS-field indices. -/
theorem makeFlow_as_fields (fm : fieldMap) (agent : List Nat) (ts : Int) (r : FlowDataRecord) :
    Option.all (fun fl => decide (fl.srcAs = 0 ∧ fl.dstAs = 0))
      (makeFlow true fm agent ts r) = true ∧
    Option.all (fun fl => decide (fl.srcAs = convert_Uint32 (r.values.getD fm.srcAsn []) ∧
        fl.dstAs = convert_Uint32 (r.values.getD fm.dstAsn [])))
      (makeFlow false fm agent ts r) = true := by
  constructor
  · rw [makeFlow]
    split
    · rw [Option.all_some, decide_eq_true_eq]
      exact ⟨rfl, rfl⟩
    · rfl
  · rw [makeFlow]
    split
    · rw [Option.all_some, decide_eq_true_eq]
      exact ⟨rfl, rfl⟩
    · rfl

lemma processFlowSets_cache_unchanged
    (decodeFS : TemplateRecords → IpfixSet → Option (List FlowDataRecord))
    (bgpAugment : Bool) (cache : templateCacheT) (exporter : Nat) (agent : List Nat)
    (domainID : Nat) (ts : Int) :
    ∀ (sets : List IpfixSet) (stats : GlobalStats),
      Option.all (fun x => decide (x.2.2 = cache))
        (processFlowSets decodeFS bgpAugment cache exporter agent domainID ts stats sets)
        = true := by
  intro sets
  induction sets with
  | nil =>
    intro stats
    rw [processFlowSets, Option.all_some, decide_eq_true_eq]
  | cons s rest ih =>
    intro stats
    rw [processFlowSets]
    split
    · exact ih stats
    · split
      · exact ih stats
      · split
        · rfl
        · next fls stats1 _ =>
          split
          · rfl
          · next fls1 stats2 cache1 heq =>
            have hr := ih stats1
            rw [heq, Option.all_some] at hr
            rw [Option.all_some]
            exact hr

/-- C6: a data-record set whose Template Identity is absent from the
Template Cache contributes nothing: processing the sets with it in front
equals processing the remaining sets (zero flows emitted for it, the
worker continues), and the Template Cache is left unchanged by the whole
run. -/
theorem processFlowSets_unknown_template
    (decodeFS : TemplateRecords → IpfixSet → Option (List FlowDataRecord))
    (bgpAugment : Bool) (cache : templateCacheT) (exporter : Nat) (agent : List Nat)
    (domainID : Nat) (ts : Int) (stats : GlobalStats) (s : IpfixSet) (sets : List IpfixSet)
    (h : tcGet cache exporter domainID s.setID = none) :
    processFlowSets decodeFS bgpAugment cache exporter agent domainID ts stats (s :: sets)
      = processFlowSets decodeFS bgpAugment cache exporter agent domainID ts stats sets ∧
    Option.all (fun x => decide (x.2.2 = cache))
      (processFlowSets decodeFS bgpAugment cache exporter agent domainID ts stats (s :: sets))
      = true := by
  have h1 : processFlowSets decodeFS bgpAugment cache exporter agent domainID ts stats (s :: sets)
      = processFlowSets decodeFS bgpAugment cache exporter agent domainID ts stats sets := by
    rw [processFlowSets, h]
  exact ⟨h1, by
    rw [h1]
    exact processFlowSets_cache_unchanged decodeFS bgpAugment cache exporter agent domainID ts sets stats⟩

/-- C6 witness: an empty cache and a single data set with set ID 300. -/
theorem processFlowSets_unknown_template_witness :
    tcGet [] 1 2 (⟨300, [9]⟩ : IpfixSet).setID = none ∧
    (processFlowSets (fun _ _ => none) false [] 1 [10] 2 0 ⟨0, 0, 0, 0, 0, 0⟩ [⟨300, [9]⟩]
        = processFlowSets (fun _ _ => none) false [] 1 [10] 2 0 ⟨0, 0, 0, 0, 0, 0⟩ [] ∧
      Option.all (fun x => decide (x.2.2 = ([] : templateCacheT)))
        (processFlowSets (fun _ _ => none) false [] 1 [10] 2 0 ⟨0, 0, 0, 0, 0, 0⟩ [⟨300, [9]⟩])
        = true) :=
  ⟨rfl, processFlowSets_unknown_template (fun _ _ => none) false [] 1 [10] 2 0
    ⟨0, 0, 0, 0, 0, 0⟩ ⟨300, [9]⟩ [] rfl⟩

/-- C7: the claim that a rejection-specific counter is incremented for a
non-IPv4 sender fails on the code: the only counters touched are the
wire-level packet and byte counters, which are incremented identically
for an accepted IPv4 datagram (here one whose payload fails to decode);
the rejection itself is only logged.  Both runs end in the same counter
state with no flows and an unchanged cache. -/
theorem packetWorker_no_rejection_counter :
    packetWorkerStep (fun _ _ => none) (fun _ _ => none) false [] ⟨0, 0, 0, 0, 0, 0⟩
        (IPAddr.nonV4 [32, 1]) [7, 7, 7] = some ([], ⟨1, 3, 0, 0, 0, 0⟩, []) ∧
    packetWorkerStep (fun _ _ => none) (fun _ _ => none) false [] ⟨0, 0, 0, 0, 0, 0⟩
        (IPAddr.v4 [10, 0, 0, 1]) [7, 7, 7] = some ([], ⟨1, 3, 0, 0, 0, 0⟩, []) := by
  decide

/-- C7 (amended): a datagram whose sender is not in the IPv4 address
space is counted in the wire-level packet/byte counters (as every
received datagram is) and then discarded: no decoding takes place (the
result does not depend on the decoders), the Template Cache is unchanged
and no Flow is emitted; the rejection is only logged, no
rejection-specific counter exists. -/
theorem packetWorker_drops_non_ipv4
    (decodeP : List Nat → IPAddr → Option IpfixPacket)
    (decodeFS : TemplateRecords → IpfixSet → Option (List FlowDataRecord))
    (bgpAugment : Bool) (cache : templateCacheT) (stats : GlobalStats)
    (remote : IPAddr) (payload : List Nat) (h : ipTo4 remote = none) :
    packetWorkerStep decodeP decodeFS bgpAugment cache stats remote payload =
      some ([], { stats with IPFIXpackets := stats.IPFIXpackets + 1,
                             IPFIXbytes := stats.IPFIXbytes + payload.length }, cache) := by
  rw [packetWorkerStep, h]

/-- C7 witness: a concrete non-IPv4 sender. -/
theorem packetWorker_drops_non_ipv4_witness :
    ipTo4 (IPAddr.nonV4 [1, 2]) = none ∧
    packetWorkerStep (fun _ _ => none) (fun _ _ => none) false [] ⟨0, 0, 0, 0, 0, 0⟩
        (IPAddr.nonV4 [1, 2]) [5, 6] = some ([], ⟨1, 2, 0, 0, 0, 0⟩, []) :=
  ⟨rfl, packetWorker_drops_non_ipv4 (fun _ _ => none) (fun _ _ => none) false []
    ⟨0, 0, 0, 0, 0, 0⟩ (IPAddr.nonV4 [1, 2]) [5, 6] rfl⟩

/-- C9: with BGP augmentation disabled, the flow an annotator worker
forwards differs from the flow it received only in its timestamp, which
is floor-aligned to the aggregation interval; every other field is
unchanged, whatever the external augmenter would do. -/
theorem annotator_mutates_only_timestamp (augment : Flow → Flow) (aggregation : Int)
    (stats : GlobalStats) (fl : Flow) (h : aggregation ≠ 0) :
    (annotatorStep false augment aggregation stats fl).map Prod.fst =
      some { fl with timestamp := align fl.timestamp aggregation } := by
  rw [annotatorStep, if_neg h]
  rfl

/-- C9 witness: interval 60, timestamp 130 aligned to 120. -/
theorem annotator_mutates_only_timestamp_witness :
    (60 : Int) ≠ 0 ∧
    (annotatorStep false (fun f => f) 60 ⟨0, 0, 0, 0, 0, 0⟩
        ⟨[1], 130, 4, 2, 100, 6, 1, 2, 80, 443, [10, 0, 0, 1], [10, 0, 0, 2], [0, 0, 0, 0], 0, 0⟩).map
        Prod.fst =
      some ⟨[1], 120, 4, 2, 100, 6, 1, 2, 80, 443, [10, 0, 0, 1], [10, 0, 0, 2], [0, 0, 0, 0], 0, 0⟩ :=
  ⟨by decide, annotator_mutates_only_timestamp (fun f => f) 60 ⟨0, 0, 0, 0, 0, 0⟩
    ⟨[1], 130, 4, 2, 100, 6, 1, 2, 80, 443, [10, 0, 0, 1], [10, 0, 0, 2], [0, 0, 0, 0], 0, 0⟩
    (by decide)⟩

/-- C10: the annotator's alignment step is total exactly when the
configured aggregation interval is nonzero: with aggregation = 0 the
modulo-by-zero panic branch (modelled as none) is always reached, and
with aggregation different from zero it is never reached. -/
theorem annotator_panics_iff_zero_aggregation :
    (∀ (bgpAugment : Bool) (augment : Flow → Flow) (stats : GlobalStats) (fl : Flow),
      annotatorStep bgpAugment augment 0 stats fl = none) ∧
    (∀ (bgpAugment : Bool) (augment : Flow → Flow) (aggregation : Int)
      (stats : GlobalStats) (fl : Flow),
      aggregation ≠ 0 → annotatorStep bgpAugment augment aggregation stats fl ≠ none) := by
  constructor
  · intro bgpAugment augment stats fl
    rw [annotatorStep, if_pos rfl]
  · intro bgpAugment augment aggregation stats fl h
    rw [annotatorStep, if_neg h]
    exact Option.noConfusion

/-- C10 witness: a nonzero interval never reaches the panic branch. -/
theorem annotator_panics_iff_zero_aggregation_witness :
    (60 : Int) ≠ 0 ∧
    annotatorStep false (fun f => f) 60 ⟨0, 0, 0, 0, 0, 0⟩
        ⟨[1], 130, 4, 2, 100, 6, 1, 2, 80, 443, [10, 0, 0, 1], [10, 0, 0, 2], [0, 0, 0, 0], 0, 0⟩
      ≠ none :=
  ⟨by decide, annotator_panics_iff_zero_aggregation.2 false (fun f => f) 60 ⟨0, 0, 0, 0, 0, 0⟩
    ⟨[1], 130, 4, 2, 100, 6, 1, 2, 80, 443, [10, 0, 0, 1], [10, 0, 0, 2], [0, 0, 0, 0], 0, 0⟩
    (by decide)⟩

end Tflow2
